import Mathlib

/-!
Shallow embedding of the htpy adapter (`src/htpy.c`), the Python binding of
the libhtp HTTP stream engine, together with proofs about its host-facing
contract: header marshalling, hook trampolines, registration, stream-state
surfacing, configuration setters, and per-direction accessors.
-/

set_option autoImplicit false

/-- Python-level value as marshalled by the adapter: an integer, a byte
string (modelled as a Lean string), or the Python None singleton. -/
inductive PyVal where
  | int (v : Int)
  | str (s : String)
  | pynone
  deriving DecidableEq, Repr

/-- Outcome of a bound method at the C/Python boundary: a raised exception
(identified by exception family and message), the Python None return
(Py_RETURN_NONE), a returned value, or an unguarded NULL dereference (a spot
where the C source reads through a pointer without an absence guard). -/
inductive PyRet (α : Type) where
  | raised (exc : String) (msg : String)
  | pyNone
  | value (v : α)
  | nullDeref
  deriving DecidableEq

/-- Byte string handed over by the grammar engine (libhtp `bstr`), modelled
as a string. -/
abbrev Bstr := String

/-- Marshalling `Py_BuildValue("s#", bstr_ptr(b), bstr_len(b))` of an
optional `bstr`: on a NULL pointer `bstr_ptr` dereferences NULL, which is
undefined behavior, recorded here as `nullDeref`. -/
def buildValue_bstr (b : Option Bstr) : PyRet PyVal :=
  match b with
  | none => .nullDeref
  | some s => .value (.str s)

/-- Python dictionary modelled as an insertion-ordered association list with
unique keys. `PyDict_SetItem` overwrites the value stored under an existing
key in place and appends a fresh key at the end, as CPython does. -/
def PyDict_SetItem {α : Type} (d : List (String × α)) (k : String) (v : α) :
    List (String × α) :=
  match d with
  | [] => [(k, v)]
  | p :: rest => if p.1 == k then (k, v) :: rest else p :: PyDict_SetItem rest k v

/-- Python dictionary lookup on the association-list model. -/
def PyDict_GetItem {α : Type} (d : List (String × α)) (k : String) : Option α :=
  (d.find? (fun p => p.1 == k)).map Prod.snd

/-- Modelled from the spec: the grammar engine's header table (`htp_table_t`
of libhtp, which is not part of this repository's source) is an
insertion-ordered sequence of name/value entries in which duplicate names
are permitted; lookup by name returns the first-seen matching entry and
indexed access walks the entries in insertion order. -/
abbrev HtpTable := List (Bstr × Bstr)

/-- Modelled from the spec: first-seen lookup by name in the header table
(libhtp `htp_table_get_c`). -/
def htp_table_get_c (t : HtpTable) (k : String) : Option (Bstr × Bstr) :=
  t.find? (fun p => p.1 == k)

/-- Modelled from the spec: indexed access into the header table in
insertion order (libhtp `htp_table_get_index`). -/
def htp_table_get_index (t : HtpTable) (i : Nat) : Option (Bstr × Bstr) :=
  t[i]?

/-- Modelled from the spec: number of entries of the header table (libhtp
`htp_table_size`). -/
def htp_table_size (t : HtpTable) : Nat :=
  t.length

/-- Parsed URI component set (libhtp `htp_uri_t`): every textual component
is an optional byte string; `port_number` is an integer that is 0 when not
populated. -/
structure HtpUri where
  scheme : Option Bstr := none
  username : Option Bstr := none
  password : Option Bstr := none
  hostname : Option Bstr := none
  port : Option Bstr := none
  port_number : Int := 0
  path : Option Bstr := none
  query : Option Bstr := none
  fragment : Option Bstr := none
  deriving DecidableEq

/-- Transaction record (libhtp `htp_tx_t`), restricted to the fields the
adapter's accessors read. Pointer fields of the C struct are optional;
numeric counters default to 0 as in the zero-initialised C struct. -/
structure HtpTx where
  request_method : Option Bstr := none
  request_line : Option Bstr := none
  request_protocol : Option Bstr := none
  request_protocol_number : Int := 0
  response_line : Option Bstr := none
  response_status : Option Bstr := none
  response_status_number : Int := 0
  response_protocol : Option Bstr := none
  response_protocol_number : Int := 0
  request_message_len : Int := 0
  response_message_len : Int := 0
  request_entity_len : Int := 0
  response_entity_len : Int := 0
  request_headers : Option HtpTable := none
  response_headers : Option HtpTable := none
  parsed_uri : Option HtpUri := none
  deriving DecidableEq

/-- Indexed access into a libhtp list (`htp_list_get`): NULL when the index
is out of range. -/
def htp_list_get {α : Type} (l : List α) (i : Nat) : Option α :=
  l[i]?

/-- Connection-parser state visible to the accessors: the connection's
transaction store (`connp->conn->transactions`) and the two per-direction
parse cursors (`connp->in_tx`, `connp->out_tx`). -/
structure HtpConnp where
  transactions : List HtpTx
  in_tx : Option HtpTx
  out_tx : Option HtpTx
  deriving DecidableEq

/-- The transaction several accessors resolve:
`htp_list_get(connp->conn->transactions, htp_list_size(...) - 1)`, the last
transaction of the store (NULL when the store is empty; the `size - 1`
underflow on an empty store falls out of range exactly as in C). -/
def lastStoredTx (c : HtpConnp) : Option HtpTx :=
  htp_list_get c.transactions (c.transactions.length - 1)

/-- Body of the GET_HEADER macro, shared by the request and response
instantiations: resolve the last stored transaction, raise when it or its
header table is missing, return None when the name is absent, and otherwise
marshal the first matching header's value. -/
def GET_HEADER (tx : Option HtpTx) (headers : Option HtpTable) (name : String) :
    PyRet PyVal :=
  match tx, headers with
  | none, _ => .raised "htpy.error" "Missing transaction or headers."
  | some _, none => .raised "htpy.error" "Missing transaction or headers."
  | some _, some t =>
    match htp_table_get_c t name with
    | none => .pyNone
    | some hdr => .value (.str hdr.2)

/-- GET_HEADER(request): `get_request_header`. -/
def htpy_connp_get_request_header (c : HtpConnp) (name : String) : PyRet PyVal :=
  GET_HEADER (lastStoredTx c) ((lastStoredTx c).bind (fun tx => tx.request_headers)) name

/-- GET_HEADER(response): `get_response_header`. -/
def htpy_connp_get_response_header (c : HtpConnp) (name : String) : PyRet PyVal :=
  GET_HEADER (lastStoredTx c) ((lastStoredTx c).bind (fun tx => tx.response_headers)) name

/-- Body of the GET_ALL_HEADERS macro: walk the header table in insertion
order and insert every entry into a fresh Python dictionary with
`PyDict_SetItem`. -/
def GET_ALL_HEADERS (tx : Option HtpTx) (headers : Option HtpTable) :
    PyRet (List (String × Bstr)) :=
  match tx, headers with
  | none, _ => .raised "htpy.error" "Missing transaction or headers."
  | some _, none => .raised "htpy.error" "Missing transaction or headers."
  | some _, some t =>
    .value (t.foldl (fun d p => PyDict_SetItem d p.1 p.2) [])

/-- GET_ALL_HEADERS(request): `get_all_request_headers`. -/
def htpy_connp_get_all_request_headers (c : HtpConnp) : PyRet (List (String × Bstr)) :=
  GET_ALL_HEADERS (lastStoredTx c) ((lastStoredTx c).bind (fun tx => tx.request_headers))

/-- GET_ALL_HEADERS(response): `get_all_response_headers`. -/
def htpy_connp_get_all_response_headers (c : HtpConnp) : PyRet (List (String × Bstr)) :=
  GET_ALL_HEADERS (lastStoredTx c) ((lastStoredTx c).bind (fun tx => tx.response_headers))

/-- Accessor `get_method`: reads the last stored transaction and raises when
it or its request method is missing. -/
def htpy_connp_get_method (c : HtpConnp) : PyRet PyVal :=
  match lastStoredTx c with
  | none => .raised "htpy.error" "Missing transaction or request method."
  | some tx =>
    match tx.request_method with
    | none => .raised "htpy.error" "Missing transaction or request method."
    | some _ => buildValue_bstr tx.request_method

/-- Accessor `get_response_status_string`: reads the last stored transaction
and, unlike the sibling accessors, marshals `tx->response_status` without
checking it for NULL first. -/
def htpy_connp_get_response_status_string (c : HtpConnp) : PyRet PyVal :=
  match lastStoredTx c with
  | none => .raised "htpy.error" "Missing transaction."
  | some tx => buildValue_bstr tx.response_status

/-- Accessor `get_response_status`: the numeric status of the last stored
transaction. -/
def htpy_connp_get_response_status (c : HtpConnp) : PyRet PyVal :=
  match lastStoredTx c with
  | none => .raised "htpy.error" "Missing transaction."
  | some tx => .value (.int tx.response_status_number)

/-- Accessor `get_response_line`: reads the response-direction parse cursor
`connp->out_tx`, returning None when the cursor or the line is missing. -/
def htpy_connp_get_response_line (c : HtpConnp) : PyRet PyVal :=
  match c.out_tx with
  | none => .pyNone
  | some tx =>
    match tx.response_line with
    | none => .pyNone
    | some _ => buildValue_bstr tx.response_line

/-- Accessor `get_request_line`: reads the request-direction parse cursor
`connp->in_tx`, returning None when the cursor or the line is missing. -/
def htpy_connp_get_request_line (c : HtpConnp) : PyRet PyVal :=
  match c.in_tx with
  | none => .pyNone
  | some tx =>
    match tx.request_line with
    | none => .pyNone
    | some _ => buildValue_bstr tx.request_line

/-- Accessor `get_response_message_length`: reads `connp->out_tx` and maps a
missing cursor or a zero counter to None. -/
def htpy_connp_get_response_message_length (c : HtpConnp) : PyRet PyVal :=
  match c.out_tx with
  | none => .pyNone
  | some tx =>
    if tx.response_message_len = 0 then .pyNone
    else .value (.int tx.response_message_len)

/-- Accessor `get_request_message_length`: reads `connp->in_tx` and maps a
missing cursor or a zero counter to None. -/
def htpy_connp_get_request_message_length (c : HtpConnp) : PyRet PyVal :=
  match c.in_tx with
  | none => .pyNone
  | some tx =>
    if tx.request_message_len = 0 then .pyNone
    else .value (.int tx.request_message_len)

/-- Accessor `get_response_entity_length`: reads `connp->out_tx` and maps a
missing cursor or a zero counter to None. -/
def htpy_connp_get_response_entity_length (c : HtpConnp) : PyRet PyVal :=
  match c.out_tx with
  | none => .pyNone
  | some tx =>
    if tx.response_entity_len = 0 then .pyNone
    else .value (.int tx.response_entity_len)

/-- Accessor `get_request_entity_length`: reads `connp->in_tx` and maps a
missing cursor or a zero counter to None. -/
def htpy_connp_get_request_entity_length (c : HtpConnp) : PyRet PyVal :=
  match c.in_tx with
  | none => .pyNone
  | some tx =>
    if tx.request_entity_len = 0 then .pyNone
    else .value (.int tx.request_entity_len)

/-- Accessor `get_request_protocol`: reads `connp->in_tx`. -/
def htpy_connp_get_request_protocol (c : HtpConnp) : PyRet PyVal :=
  match c.in_tx with
  | none => .pyNone
  | some tx =>
    match tx.request_protocol with
    | none => .pyNone
    | some _ => buildValue_bstr tx.request_protocol

/-- Accessor `get_request_protocol_number`: reads `connp->in_tx` and maps a
zero protocol number to None. -/
def htpy_connp_get_request_protocol_number (c : HtpConnp) : PyRet PyVal :=
  match c.in_tx with
  | none => .pyNone
  | some tx =>
    if tx.request_protocol_number = 0 then .pyNone
    else .value (.int tx.request_protocol_number)

/-- Accessor `get_response_protocol`: reads `connp->out_tx`. -/
def htpy_connp_get_response_protocol (c : HtpConnp) : PyRet PyVal :=
  match c.out_tx with
  | none => .pyNone
  | some tx =>
    match tx.response_protocol with
    | none => .pyNone
    | some _ => buildValue_bstr tx.response_protocol

/-- Accessor `get_response_protocol_number`: reads `connp->out_tx` and maps
a zero protocol number to None. -/
def htpy_connp_get_response_protocol_number (c : HtpConnp) : PyRet PyVal :=
  match c.out_tx with
  | none => .pyNone
  | some tx =>
    if tx.response_protocol_number = 0 then .pyNone
    else .value (.int tx.response_protocol_number)

/-- One conditional step of `get_uri`: when the component is present, insert
it into the dictionary under its label as a Python string. -/
def optSetStr (d : List (String × PyVal)) (label : String) (v : Option Bstr) :
    List (String × PyVal) :=
  match v with
  | none => d
  | some s => PyDict_SetItem d label (.str s)

/-- Dictionary built by `get_uri`: one conditional insertion per URI
component, in source order. -/
def uriDictOf (uri : HtpUri) : List (String × PyVal) :=
  let d := optSetStr [] "scheme" uri.scheme
  let d := optSetStr d "username" uri.username
  let d := optSetStr d "password" uri.password
  let d := optSetStr d "hostname" uri.hostname
  let d := optSetStr d "port" uri.port
  let d := if uri.port_number ≠ 0 then
             PyDict_SetItem d "port_number" (.int uri.port_number)
           else d
  let d := optSetStr d "path" uri.path
  let d := optSetStr d "query" uri.query
  optSetStr d "fragment" uri.fragment

/-- Accessor `get_uri`: reads `connp->in_tx->parsed_uri` and builds a
dictionary holding exactly the components that are present, in source
order. -/
def htpy_connp_get_uri (c : HtpConnp) : PyRet (List (String × PyVal)) :=
  match c.in_tx with
  | none => .pyNone
  | some tx =>
    match tx.parsed_uri with
    | none => .pyNone
    | some uri => .value (uriDictOf uri)

/-- HTP_ERROR return code of libhtp hooks. -/
def HTP_ERROR : Int := -1

/-- Outcome of invoking the registered Python handler through
`PyObject_CallObject`: the returned object (`none` models a NULL return or
a non-integer object for `PyInt_AsLong`) together with whether a host-side
exception is pending after the call (`PyErr_Occurred`). -/
structure PyCallOutcome where
  retval : Option Int
  errPending : Bool
  deriving DecidableEq

/-- Conversion `PyInt_AsLong`: on NULL (or a failed conversion) CPython
yields -1. -/
def PyInt_AsLong (o : Option Int) : Int :=
  match o with
  | some v => v
  | none => -1

/-- What a trampoline hands back to the grammar engine: the integer control
signal, plus whether `PyErr_PrintEx(0)` reported a pending handler fault. -/
structure CallbackResult where
  signal : Int
  faultPrinted : Bool
  deriving DecidableEq

/-- Body of the CALLBACK macro trampoline: a failed argument-list build
returns HTP_ERROR; a pending exception after the handler call is printed
and mapped to HTP_ERROR; otherwise the handler's integer return value is
passed back to the grammar engine. -/
def CALLBACK (argBuildOk : Bool) (call : PyCallOutcome) : CallbackResult :=
  if !argBuildOk then { signal := HTP_ERROR, faultPrinted := false }
  else if call.errPending then { signal := HTP_ERROR, faultPrinted := true }
  else { signal := PyInt_AsLong call.retval, faultPrinted := false }

/-- Control-flow body of the CALLBACK_TX macro trampoline, identical to
CALLBACK apart from the marshalled argument list. -/
def CALLBACK_TX (argBuildOk : Bool) (call : PyCallOutcome) : CallbackResult :=
  if !argBuildOk then { signal := HTP_ERROR, faultPrinted := false }
  else if call.errPending then { signal := HTP_ERROR, faultPrinted := true }
  else { signal := PyInt_AsLong call.retval, faultPrinted := false }

/-- Control-flow body of `htpy_log_callback`, again identical apart from the
marshalled argument list. -/
def htpy_log_callback (argBuildOk : Bool) (call : PyCallOutcome) : CallbackResult :=
  if !argBuildOk then { signal := HTP_ERROR, faultPrinted := false }
  else if call.errPending then { signal := HTP_ERROR, faultPrinted := true }
  else { signal := PyInt_AsLong call.retval, faultPrinted := false }

/-- Data chunk handed to a CALLBACK_TX trampoline (libhtp `htp_tx_data_t`):
a byte buffer plus a length field describing how many leading bytes of the
buffer belong to the chunk. -/
structure HtpTxData where
  data : List Nat
  len : Nat
  deriving DecidableEq

/-- Arguments a CALLBACK_TX trampoline marshals for the handler:
`Py_BuildValue("(s#I)", txd->data, txd->len, txd->len)` builds a byte view
of `txd->len` bytes starting at `txd->data` plus `txd->len` once more as a
separate unsigned integer. -/
structure TxDataArgs where
  view : List Nat
  explicitLen : Nat
  deriving DecidableEq

/-- Argument marshalling of the CALLBACK_TX macro. -/
def CALLBACK_TX_args (txd : HtpTxData) : TxDataArgs :=
  { view := txd.data.take txd.len, explicitLen := txd.len }

/-- Stream states of the grammar engine. Modelled from the spec: the closed
set returned by the feed entry points of libhtp (`htp_stream_state_t`,
outside this repository's source). -/
inductive HtpStreamState where
  | NEW
  | OPEN
  | CLOSED
  | ERROR
  | TUNNEL
  | DATA_OTHER
  | DATA
  | STOP
  deriving DecidableEq, Repr

/-- Body of the DATA macro shared by `req_data` and `res_data`: a stream
error raises `htpy.error`, a stream stop raises `htpy.stop`, and every other
stream state is returned as the state value. -/
def DATA_feed (x : HtpStreamState) : PyRet HtpStreamState :=
  if x = .ERROR then .raised "htpy.error" "Stream error."
  else if x = .STOP then .raised "htpy.stop" "Stream stop."
  else .value x

/-- `req_data`: feeds request bytes and surfaces the resulting stream
state. -/
def htpy_connp_req_data (x : HtpStreamState) : PyRet HtpStreamState :=
  DATA_feed x

/-- `res_data`: feeds response bytes and surfaces the resulting stream
state. -/
def htpy_connp_res_data (x : HtpStreamState) : PyRet HtpStreamState :=
  DATA_feed x

/-- State of one htpy callback slot together with Python reference-count
bookkeeping. Handler objects are identified by numeric ids; `refcnt` maps an
object id to its reference count; `trampolines` counts how many times the C
trampoline has been appended to the libhtp hook list for this slot
(`htp_config_register_*` appends on every registration). -/
structure SlotState where
  slot : Option Nat
  refcnt : Nat → Int
  trampolines : Nat

/-- Body of the REGISTER_CALLBACK macro: reject a non-callable, otherwise
`Py_XINCREF` the new handler, `Py_XDECREF` the old one, store the new
handler in the slot and register the C trampoline with libhtp once more.
Returns Python None on success. -/
def REGISTER_CALLBACK (st : SlotState) (temp : Nat) (callable : Bool) :
    PyRet Unit × SlotState :=
  if !callable then (.raised "TypeError" "parameter must be callable", st)
  else
    let rc1 := fun x => if x = temp then st.refcnt x + 1 else st.refcnt x
    let rc2 := match st.slot with
      | some old => fun x => if x = old then rc1 x - 1 else rc1 x
      | none => rc1
    (.pyNone, { slot := some temp, refcnt := rc2, trampolines := st.trampolines + 1 })

/-- Handlers actually invoked when an event for this slot fires: libhtp runs
the trampoline once per appended registration, and every trampoline run
dispatches to the Python object currently stored in the slot. -/
def eventInvocations (st : SlotState) : List Nat :=
  match st.slot with
  | none => []
  | some h => List.replicate st.trampolines h

/-- Global state touched by `register_request_file_data`: the process-wide
handler slot, reference counts, and the config flag enabling on-disk
extraction. -/
structure FileDataGlobal where
  request_file_data_callback : Option Nat
  refcnt : Nat → Int
  extract_request_files : Bool

/-- `register_request_file_data`: same replace-and-release discipline as
REGISTER_CALLBACK on the process-wide slot, optionally switching on file
extraction. -/
def htpy_connp_register_request_file_data (g : FileDataGlobal) (temp : Nat)
    (callable : Bool) (extract : Bool) : PyRet Unit × FileDataGlobal :=
  if !callable then (.raised "TypeError" "parameter must be callable", g)
  else
    let rc1 := fun x => if x = temp then g.refcnt x + 1 else g.refcnt x
    let rc2 := match g.request_file_data_callback with
      | some old => fun x => if x = old then rc1 x - 1 else rc1 x
      | none => rc1
    (.pyNone,
     { request_file_data_callback := some temp,
       refcnt := rc2,
       extract_request_files := g.extract_request_files || extract })

/-- Configuration record (libhtp `htp_cfg_t`), restricted to the fields the
adapter's setters touch. -/
structure HtpCfg where
  log_level : Int
  tx_auto_destroy : Int
  deriving DecidableEq

/-- Setter `config.log_level`: a NULL value (attribute deletion) and a
non-integer value raise immediately; any integer — the source deliberately
performs no range check — is stored as the log level. -/
def htpy_config_set_log_level (cfg : HtpCfg) (value : Option PyVal) : PyRet HtpCfg :=
  match value with
  | none => .raised "htpy.error" "Value may not be None."
  | some (.int v) => .value { cfg with log_level := v }
  | some _ => .raised "htpy.error" "Attribute must be of type int."

/-- Setter `config.tx_auto_destroy` (the CONFIG_SET macro): same checks,
storing the integer through `htp_config_set_tx_auto_destroy`. -/
def htpy_config_set_tx_auto_destroy (cfg : HtpCfg) (value : Option PyVal) : PyRet HtpCfg :=
  match value with
  | none => .raised "htpy.error" "Value may not be None."
  | some (.int v) => .value { cfg with tx_auto_destroy := v }
  | some _ => .raised "htpy.error" "Attribute must be of type int."

/-! Helper lemmas about the dictionary and header-table models. -/

theorem find?_append_of_all_false {α : Type} (p : α → Bool) (l r : List α)
    (h : ∀ a ∈ l, p a = false) : (l ++ r).find? p = r.find? p := by
  induction l with
  | nil => rfl
  | cons a t ih =>
    rw [List.cons_append, List.find?_cons_of_neg _ (by simp [h a (by simp)])]
    exact ih (fun x hx => h x (by simp [hx]))

theorem not_mem_keys_beq_false {α : Type} {d : List (String × α)} {k : String}
    (h : k ∉ d.map Prod.fst) : ∀ p ∈ d, (p.1 == k) = false := by
  intro p hp
  rw [beq_eq_false_iff_ne]
  intro he
  exact h (he ▸ List.mem_map_of_mem Prod.fst hp)

theorem PyDict_GetItem_SetItem_self {α : Type} (d : List (String × α)) (k : String) (v : α) :
    PyDict_GetItem (PyDict_SetItem d k v) k = some v := by
  induction d with
  | nil => simp [PyDict_SetItem, PyDict_GetItem]
  | cons p rest ih =>
    by_cases h : (p.1 == k) = true
    · simp [PyDict_SetItem, h, PyDict_GetItem]
    · simp only [PyDict_SetItem, h, Bool.false_eq_true, if_false]
      rw [PyDict_GetItem, List.find?_cons_of_neg _ (by simpa using h)]
      exact ih

theorem PyDict_GetItem_SetItem_other {α : Type} (d : List (String × α)) (k kq : String)
    (v : α) (h : kq ≠ k) :
    PyDict_GetItem (PyDict_SetItem d k v) kq = PyDict_GetItem d kq := by
  have hkkq : (k == kq) = false := by
    rw [beq_eq_false_iff_ne]
    exact Ne.symm h
  induction d with
  | nil => simp [PyDict_SetItem, PyDict_GetItem, List.find?, hkkq]
  | cons p rest ih =>
    by_cases hp : (p.1 == k) = true
    · have hpk : p.1 = k := by simpa using hp
      have hpq : (p.1 == kq) = false := by
        rw [beq_eq_false_iff_ne, hpk]
        exact Ne.symm h
      simp only [PyDict_SetItem, hp, if_true]
      simp [PyDict_GetItem, List.find?, hkkq, hpq]
    · simp only [PyDict_SetItem, hp, Bool.false_eq_true, if_false]
      simp only [PyDict_GetItem, List.find?] at ih ⊢
      cases hq : (p.1 == kq) with
      | true => simp [hq]
      | false => simpa [hq] using ih

theorem keys_SetItem_subset {α : Type} (d : List (String × α)) (k : String) (v : α) :
    ∀ x ∈ (PyDict_SetItem d k v).map Prod.fst, x = k ∨ x ∈ d.map Prod.fst := by
  induction d with
  | nil => simp [PyDict_SetItem]
  | cons p rest ih =>
    by_cases hp : (p.1 == k) = true
    · simp only [PyDict_SetItem, hp, if_true]
      intro x hx
      rcases (by simpa using hx) with h | h
      · exact Or.inl h
      · exact Or.inr (by simp [h])
    · simp only [PyDict_SetItem, hp, Bool.false_eq_true, if_false]
      intro x hx
      rcases (by simpa using hx) with h | h
      · exact Or.inr (by simp [h])
      · rcases ih x (by simpa using h) with h2 | h2
        · exact Or.inl h2
        · exact Or.inr (by simp [h2])

theorem keys_SetItem_nodup {α : Type} {d : List (String × α)} (k : String) (v : α)
    (h : (d.map Prod.fst).Nodup) : ((PyDict_SetItem d k v).map Prod.fst).Nodup := by
  induction d with
  | nil => simp [PyDict_SetItem]
  | cons p rest ih =>
    rw [List.map_cons, List.nodup_cons] at h
    by_cases hp : (p.1 == k) = true
    · have hpk : p.1 = k := by simpa using hp
      simp only [PyDict_SetItem, hp, if_true, List.map_cons, List.nodup_cons]
      exact ⟨hpk ▸ h.1, h.2⟩
    · have hpk : p.1 ≠ k := by simpa using hp
      simp only [PyDict_SetItem, hp, Bool.false_eq_true, if_false, List.map_cons,
        List.nodup_cons]
      refine ⟨fun hmem => ?_, ih h.2⟩
      rcases keys_SetItem_subset rest k v p.1 hmem with h2 | h2
      · exact hpk h2
      · exact h.1 h2

theorem PyDict_GetItem_of_mem {α : Type} {d : List (String × α)} {k : String} {v : α}
    (hnd : (d.map Prod.fst).Nodup) (hm : (k, v) ∈ d) : PyDict_GetItem d k = some v := by
  induction d with
  | nil => simp at hm
  | cons p rest ih =>
    rw [List.map_cons, List.nodup_cons] at hnd
    rcases List.mem_cons.mp hm with h | h
    · rw [PyDict_GetItem, List.find?_cons_of_pos _ (by simp [← h])]
      simp [← h]
    · have hk : k ∈ rest.map Prod.fst := by
        simpa using List.mem_map_of_mem Prod.fst h
      have hpk : (p.1 == k) = false := by
        rw [beq_eq_false_iff_ne]
        intro he
        exact hnd.1 (he ▸ hk)
      rw [PyDict_GetItem, List.find?_cons_of_neg _ (by simp [hpk])]
      exact ih hnd.2 h

theorem getItem_headers_foldl_of_not_key {t : HtpTable} {n : String}
    (d : List (String × Bstr)) (h : n ∉ t.map Prod.fst) :
    PyDict_GetItem (t.foldl (fun d p => PyDict_SetItem d p.1 p.2) d) n =
      PyDict_GetItem d n := by
  induction t generalizing d with
  | nil => rfl
  | cons p rest ih =>
    rw [List.map_cons] at h
    rw [List.foldl_cons, ih (PyDict_SetItem d p.1 p.2) (fun hx => h (by simp [hx])),
      PyDict_GetItem_SetItem_other _ _ _ _ (fun he => h (by simp [he]))]

theorem keys_headers_foldl_nodup (t : HtpTable) (d : List (String × Bstr))
    (h : (d.map Prod.fst).Nodup) :
    ((t.foldl (fun d p => PyDict_SetItem d p.1 p.2) d).map Prod.fst).Nodup := by
  induction t generalizing d with
  | nil => exact h
  | cons p rest ih => exact ih _ (keys_SetItem_nodup _ _ h)

theorem table_get_first (pre rest : HtpTable) (n v1 : Bstr)
    (hpre : n ∉ pre.map Prod.fst) :
    htp_table_get_c (pre ++ ((n, v1) :: rest)) n = some (n, v1) := by
  rw [htp_table_get_c,
    find?_append_of_all_false _ _ _ (not_mem_keys_beq_false hpre),
    List.find?_cons_of_pos _ (by simp)]

theorem buildDict_getItem_last (pre mid post : HtpTable) (n v1 v2 : Bstr)
    (hpost : n ∉ post.map Prod.fst) :
    PyDict_GetItem
      ((pre ++ ((n, v1) :: (mid ++ ((n, v2) :: post)))).foldl
        (fun d p => PyDict_SetItem d p.1 p.2) []) n = some v2 := by
  rw [List.foldl_append, List.foldl_cons, List.foldl_append, List.foldl_cons,
    getItem_headers_foldl_of_not_key _ hpost, PyDict_GetItem_SetItem_self]

/-- Concrete parser state with one stored transaction carrying two headers
that share the name Set-Cookie. -/
def c1ConnpCx : HtpConnp :=
  { transactions :=
      [{ request_headers := some [("Set-Cookie", "a"), ("Set-Cookie", "b")],
         response_headers := some [("Set-Cookie", "a"), ("Set-Cookie", "b")] }],
    in_tx := none,
    out_tx := none }

/-- C1 counterexample: on a transaction with two Set-Cookie headers, the
full-enumeration accessor returns a dictionary with a single entry holding
the last value — the first entry is not a separate entry of the result —
while lookup-by-name returns the first-seen value. -/
theorem c1_counterexample :
    htpy_connp_get_all_request_headers c1ConnpCx = PyRet.value [("Set-Cookie", "b")] ∧
    htpy_connp_get_all_response_headers c1ConnpCx = PyRet.value [("Set-Cookie", "b")] ∧
    htpy_connp_get_request_header c1ConnpCx "Set-Cookie" = PyRet.value (.str "a") := by
  exact ⟨rfl, rfl, rfl⟩

/-- C1 (amended): for a transaction whose header table holds two entries
sharing a name, lookup-by-name (get_request_header / get_response_header)
returns the first-seen entry's value without raising, while the
full-enumeration accessors (get_all_request_headers /
get_all_response_headers) return a Python dictionary in which the repeated
name maps to the last-seen value only: the duplicate entries are collapsed
into a single entry rather than preserved separately. -/
theorem c1_headers_amended (pre mid post : HtpTable) (n v1 v2 : Bstr)
    (c : HtpConnp) (tx : HtpTx)
    (hlast : lastStoredTx c = some tx)
    (hreq : tx.request_headers = some (pre ++ ((n, v1) :: (mid ++ ((n, v2) :: post)))))
    (hres : tx.response_headers = some (pre ++ ((n, v1) :: (mid ++ ((n, v2) :: post)))))
    (hpre : n ∉ pre.map Prod.fst) (hpost : n ∉ post.map Prod.fst) :
    htpy_connp_get_request_header c n = .value (.str v1) ∧
    htpy_connp_get_response_header c n = .value (.str v1) ∧
    (∃ d, htpy_connp_get_all_request_headers c = .value d ∧
      PyDict_GetItem d n = some v2 ∧ ∀ v, (n, v) ∈ d → v = v2) ∧
    (∃ d, htpy_connp_get_all_response_headers c = .value d ∧
      PyDict_GetItem d n = some v2 ∧ ∀ v, (n, v) ∈ d → v = v2) := by
  have hget : htp_table_get_c (pre ++ ((n, v1) :: (mid ++ ((n, v2) :: post)))) n =
      some (n, v1) := table_get_first _ _ _ _ hpre
  have hdict : PyDict_GetItem
      ((pre ++ ((n, v1) :: (mid ++ ((n, v2) :: post)))).foldl
        (fun d p => PyDict_SetItem d p.1 p.2) []) n = some v2 :=
    buildDict_getItem_last _ _ _ _ _ _ hpost
  have hnodup := keys_headers_foldl_nodup
    (pre ++ ((n, v1) :: (mid ++ ((n, v2) :: post)))) [] (by simp)
  have hmem : ∀ v, (n, v) ∈
      (pre ++ ((n, v1) :: (mid ++ ((n, v2) :: post)))).foldl
        (fun d p => PyDict_SetItem d p.1 p.2) [] → v = v2 := by
    intro v hv
    have := PyDict_GetItem_of_mem hnodup hv
    rw [hdict] at this
    exact (Option.some_injective _ this).symm
  refine ⟨?_, ?_, ?_, ?_⟩
  · rw [htpy_connp_get_request_header, hlast]
    simp only [Option.some_bind, hreq]
    rw [GET_HEADER]
    simp [hget]
  · rw [htpy_connp_get_response_header, hlast]
    simp only [Option.some_bind, hres]
    rw [GET_HEADER]
    simp [hget]
  · refine ⟨_, ?_, hdict, hmem⟩
    rw [htpy_connp_get_all_request_headers, hlast]
    simp only [Option.some_bind, hreq]
    rfl
  · refine ⟨_, ?_, hdict, hmem⟩
    rw [htpy_connp_get_all_response_headers, hlast]
    simp only [Option.some_bind, hres]
    rfl

/-- C1 witness: the amended statement instantiated on the concrete
two-Set-Cookie state. -/
theorem c1_headers_amended_witness :
    htpy_connp_get_request_header c1ConnpCx "Set-Cookie" = .value (.str "a") ∧
    (∃ d, htpy_connp_get_all_request_headers c1ConnpCx = .value d ∧
      PyDict_GetItem d "Set-Cookie" = some "b" ∧
      ∀ v, ("Set-Cookie", v) ∈ d → v = "b") := by
  have h := c1_headers_amended [] [] [] "Set-Cookie" "a" "b" c1ConnpCx
    { request_headers := some [("Set-Cookie", "a"), ("Set-Cookie", "b")],
      response_headers := some [("Set-Cookie", "a"), ("Set-Cookie", "b")] }
    rfl rfl rfl (by simp) (by simp)
  exact ⟨h.1, h.2.2.1⟩

/-- C2: whenever the registered handler fails to run to completion — a
host-side exception is pending after the call — every trampoline (the
CALLBACK and CALLBACK_TX macro bodies and htpy_log_callback) hands the
HTP_ERROR control signal back to the grammar engine, the same signal a
handler produces by returning ERROR explicitly, and the fault is printed
through PyErr_PrintEx rather than silently dropped. -/
theorem c2_handler_fault_is_error (call : PyCallOutcome)
    (hfault : call.errPending = true) :
    CALLBACK true call = { signal := HTP_ERROR, faultPrinted := true } ∧
    CALLBACK_TX true call = { signal := HTP_ERROR, faultPrinted := true } ∧
    htpy_log_callback true call = { signal := HTP_ERROR, faultPrinted := true } ∧
    (CALLBACK true call).signal =
      (CALLBACK true { retval := some HTP_ERROR, errPending := false }).signal := by
  simp [CALLBACK, CALLBACK_TX, htpy_log_callback, hfault, PyInt_AsLong, HTP_ERROR]

/-- C2 witness: a concrete faulting handler invocation yields HTP_ERROR with
the fault reported. -/
theorem c2_handler_fault_is_error_witness :
    CALLBACK true { retval := none, errPending := true } =
      { signal := HTP_ERROR, faultPrinted := true } :=
  (c2_handler_fault_is_error { retval := none, errPending := true } rfl).1

/-- C3: the feed entry points req_data and res_data surface a Stream Stop
result as the htpy.stop exception, a different exception kind from the
htpy.error exception raised for Stream Error, and return every other
stream state as the state value. -/
theorem c3_stop_distinct_from_error :
    htpy_connp_req_data .STOP = .raised "htpy.stop" "Stream stop." ∧
    htpy_connp_req_data .ERROR = .raised "htpy.error" "Stream error." ∧
    htpy_connp_res_data .STOP = .raised "htpy.stop" "Stream stop." ∧
    htpy_connp_res_data .ERROR = .raised "htpy.error" "Stream error." ∧
    htpy_connp_req_data .STOP ≠ htpy_connp_req_data .ERROR ∧
    (∀ x : HtpStreamState, x ≠ .ERROR → x ≠ .STOP →
      htpy_connp_req_data x = .value x) ∧
    (∀ x : HtpStreamState, x ≠ .ERROR → x ≠ .STOP →
      htpy_connp_res_data x = .value x) := by
  refine ⟨rfl, rfl, rfl, rfl, by decide, ?_, ?_⟩ <;>
    intro x hx1 hx2 <;>
    simp [htpy_connp_req_data, htpy_connp_res_data, DATA_feed, hx1, hx2]

/-- C3 witness: concrete non-error, non-stop stream states are returned as
values. -/
theorem c3_stop_distinct_from_error_witness :
    htpy_connp_req_data .DATA = .value .DATA ∧
    htpy_connp_res_data .CLOSED = .value .CLOSED :=
  ⟨c3_stop_distinct_from_error.2.2.2.2.2.1 .DATA (by decide) (by decide),
   c3_stop_distinct_from_error.2.2.2.2.2.2 .CLOSED (by decide) (by decide)⟩

/-- C7: the payload a CALLBACK_TX trampoline delivers to a streaming data
handler is the byte view of the chunk together with a separately passed
explicit length, and that separate length equals the length of the byte
view. -/
theorem c7_txdata_len_matches_view (txd : HtpTxData)
    (h : txd.len ≤ txd.data.length) :
    (CALLBACK_TX_args txd).explicitLen = (CALLBACK_TX_args txd).view.length := by
  simp [CALLBACK_TX_args, List.length_take, Nat.min_eq_left h]

/-- C7 witness: a concrete four-byte chunk. -/
theorem c7_txdata_len_matches_view_witness :
    (CALLBACK_TX_args { data := [72, 84, 84, 80], len := 4 }).explicitLen =
      (CALLBACK_TX_args { data := [72, 84, 84, 80], len := 4 }).view.length :=
  c7_txdata_len_matches_view { data := [72, 84, 84, 80], len := 4 } (by decide)

/-- C8 counterexample: 101 is outside every defined log level, yet the
log-level setter accepts and stores it instead of surfacing an error at the
call. -/
theorem c8_counterexample :
    htpy_config_set_log_level { log_level := 0, tx_auto_destroy := 1 }
      (some (.int 101)) = .value { log_level := 101, tx_auto_destroy := 1 } := rfl

/-- C8 (amended): a configuration-setting call with a missing value or a
wrongly typed value fails immediately at that setter call; an out-of-range
integer value, however, is not validated — the log-level setter stores any
integer as given. -/
theorem c8_config_setter_amended (cfg : HtpCfg) :
    htpy_config_set_log_level cfg none =
      .raised "htpy.error" "Value may not be None." ∧
    (∀ s, htpy_config_set_log_level cfg (some (.str s)) =
      .raised "htpy.error" "Attribute must be of type int.") ∧
    htpy_config_set_log_level cfg (some .pynone) =
      .raised "htpy.error" "Attribute must be of type int." ∧
    (∀ v : Int, htpy_config_set_log_level cfg (some (.int v)) =
      .value { cfg with log_level := v }) ∧
    htpy_config_set_tx_auto_destroy cfg none =
      .raised "htpy.error" "Value may not be None." ∧
    (∀ s, htpy_config_set_tx_auto_destroy cfg (some (.str s)) =
      .raised "htpy.error" "Attribute must be of type int.") ∧
    (∀ v : Int, htpy_config_set_tx_auto_destroy cfg (some (.int v)) =
      .value { cfg with tx_auto_destroy := v }) :=
  ⟨rfl, fun _ => rfl, rfl, fun _ => rfl, rfl, fun _ => rfl, fun _ => rfl⟩

theorem register_slot_eq (st : SlotState) (temp : Nat) :
    (REGISTER_CALLBACK st temp true).2.slot = some temp := by
  cases h : st.slot <;> simp [REGISTER_CALLBACK, h]

theorem register_refcnt_incr (st : SlotState) (temp : Nat)
    (hfresh : st.slot ≠ some temp) :
    (REGISTER_CALLBACK st temp true).2.refcnt temp = st.refcnt temp + 1 := by
  cases h : st.slot with
  | none => simp [REGISTER_CALLBACK, h]
  | some old =>
    have : temp ≠ old := fun he => hfresh (by rw [h, he])
    simp [REGISTER_CALLBACK, h, this]

theorem register_refcnt_decr_old (st : SlotState) (old temp : Nat)
    (hslot : st.slot = some old) (hne : old ≠ temp) :
    (REGISTER_CALLBACK st temp true).2.refcnt old = st.refcnt old - 1 := by
  simp [REGISTER_CALLBACK, hslot, hne]

/-- C4: after two successive registrations on a hook slot (with handlers
distinct and the slot not already holding the first one), only the newly
registered handler is stored in the slot, every trampoline run on a
subsequent event dispatches to the new handler and never to the old one,
and the old handler's reference count is back at its pre-registration
value — it has been released. The process-wide request_file_data slot
behaves the same way. -/
theorem c4_register_replaces_and_releases (st : SlotState) (g : FileDataGlobal)
    (h1 h2 : Nat) (e1 e2 : Bool) (hne : h1 ≠ h2) (hfresh : st.slot ≠ some h1)
    (hgfresh : g.request_file_data_callback ≠ some h1) :
    (REGISTER_CALLBACK (REGISTER_CALLBACK st h1 true).2 h2 true).2.slot = some h2 ∧
    (∀ h ∈ eventInvocations (REGISTER_CALLBACK (REGISTER_CALLBACK st h1 true).2 h2 true).2,
      h = h2) ∧
    h1 ∉ eventInvocations (REGISTER_CALLBACK (REGISTER_CALLBACK st h1 true).2 h2 true).2 ∧
    (REGISTER_CALLBACK (REGISTER_CALLBACK st h1 true).2 h2 true).2.refcnt h1 =
      st.refcnt h1 ∧
    (htpy_connp_register_request_file_data
      (htpy_connp_register_request_file_data g h1 true e1).2 h2 true
        e2).2.request_file_data_callback = some h2 ∧
    (htpy_connp_register_request_file_data
      (htpy_connp_register_request_file_data g h1 true e1).2 h2 true e2).2.refcnt h1 =
      g.refcnt h1 := by
  have hslot1 : (REGISTER_CALLBACK st h1 true).2.slot = some h1 := register_slot_eq st h1
  have hrc1 : (REGISTER_CALLBACK st h1 true).2.refcnt h1 = st.refcnt h1 + 1 :=
    register_refcnt_incr st h1 hfresh
  refine ⟨register_slot_eq _ h2, ?_, ?_, ?_, ?_, ?_⟩
  · intro h hmem
    rw [eventInvocations, register_slot_eq] at hmem
    exact List.eq_of_mem_replicate hmem
  · intro hmem
    rw [eventInvocations, register_slot_eq] at hmem
    exact hne (List.eq_of_mem_replicate hmem)
  · rw [register_refcnt_decr_old _ h1 h2 hslot1 hne, hrc1]
    omega
  · cases hg1 : (htpy_connp_register_request_file_data g h1 true e1).2.request_file_data_callback <;>
      simp [htpy_connp_register_request_file_data, hg1]
  · have hg1 : (htpy_connp_register_request_file_data g h1 true
        e1).2.request_file_data_callback = some h1 := by
      cases hg : g.request_file_data_callback <;>
        simp [htpy_connp_register_request_file_data, hg]
    have hgrc1 : (htpy_connp_register_request_file_data g h1 true e1).2.refcnt h1 =
        g.refcnt h1 + 1 := by
      cases hg : g.request_file_data_callback with
      | none => simp [htpy_connp_register_request_file_data, hg]
      | some gold =>
        have : h1 ≠ gold := fun he => hgfresh (by rw [hg, he])
        simp [htpy_connp_register_request_file_data, hg, this]
    have hdecr : (htpy_connp_register_request_file_data
        (htpy_connp_register_request_file_data g h1 true e1).2 h2 true e2).2.refcnt h1 =
        (htpy_connp_register_request_file_data g h1 true e1).2.refcnt h1 - 1 := by
      generalize (htpy_connp_register_request_file_data g h1 true e1).2 = g1 at hg1 ⊢
      simp [htpy_connp_register_request_file_data, hg1, hne]
    rw [hdecr, hgrc1]
    omega

/-- C4 witness: two successive registrations of handlers 1 and 2 on an
empty slot leave handler 2 installed and handler 1's reference count
restored. -/
theorem c4_register_replaces_and_releases_witness :
    (REGISTER_CALLBACK (REGISTER_CALLBACK
      { slot := none, refcnt := fun _ => 1, trampolines := 0 } 1 true).2
        2 true).2.slot = some 2 ∧
    (REGISTER_CALLBACK (REGISTER_CALLBACK
      { slot := none, refcnt := fun _ => 1, trampolines := 0 } 1 true).2
        2 true).2.refcnt 1 = 1 := by
  have h := c4_register_replaces_and_releases
    { slot := none, refcnt := fun _ => 1, trampolines := 0 }
    { request_file_data_callback := none, refcnt := fun _ => 1,
      extract_request_files := false }
    1 2 false false (by decide) (by decide) (by decide)
  exact ⟨h.1, h.2.2.2.1⟩

theorem lastStoredTx_eq_getLast (c : HtpConnp) :
    lastStoredTx c = c.transactions.getLast? := by
  rw [lastStoredTx, htp_list_get, List.getLast?_eq_getElem?]

/-- Concrete parser state with two stored transactions carrying distinct
request lines while the request-direction cursor still points at the
first. -/
def c5ConnpCx : HtpConnp :=
  { transactions :=
      [{ request_line := some "GET /old HTTP/1.1" },
       { request_line := some "GET /new HTTP/1.1" }],
    in_tx := some { request_line := some "GET /old HTTP/1.1" },
    out_tx := none }

/-- C5 counterexample: get_request_line resolves the transaction currently
mid-parse (the in_tx cursor) and returns its line, while the last
transaction in the store carries a different line — so not every
direction-scoped accessor resolves the last transaction of the store. -/
theorem c5_counterexample :
    htpy_connp_get_request_line c5ConnpCx = .value (.str "GET /old HTTP/1.1") ∧
    (lastStoredTx c5ConnpCx).bind (fun tx => tx.request_line) =
      some "GET /new HTTP/1.1" :=
  ⟨rfl, rfl⟩

/-- C5 (amended): the header lookup, full header enumeration, method and
status accessors resolve the current transaction as the last transaction in
the connection's store — their results depend only on the store — while
the request/response line, protocol, length and URI accessors resolve it
through the per-direction parse cursors in_tx/out_tx — their results depend
only on the cursors. The store-based resolution is indeed last-of-store:
lastStoredTx is List.getLast? of the store. -/
theorem c5_accessor_resolution_amended (a b d e : HtpConnp) (n : String)
    (hstore : a.transactions = b.transactions)
    (hin : d.in_tx = e.in_tx) (hout : d.out_tx = e.out_tx) :
    lastStoredTx a = a.transactions.getLast? ∧
    htpy_connp_get_request_header a n = htpy_connp_get_request_header b n ∧
    htpy_connp_get_response_header a n = htpy_connp_get_response_header b n ∧
    htpy_connp_get_all_request_headers a = htpy_connp_get_all_request_headers b ∧
    htpy_connp_get_all_response_headers a = htpy_connp_get_all_response_headers b ∧
    htpy_connp_get_method a = htpy_connp_get_method b ∧
    htpy_connp_get_response_status a = htpy_connp_get_response_status b ∧
    htpy_connp_get_response_status_string a = htpy_connp_get_response_status_string b ∧
    htpy_connp_get_request_line d = htpy_connp_get_request_line e ∧
    htpy_connp_get_response_line d = htpy_connp_get_response_line e ∧
    htpy_connp_get_request_protocol d = htpy_connp_get_request_protocol e ∧
    htpy_connp_get_request_protocol_number d = htpy_connp_get_request_protocol_number e ∧
    htpy_connp_get_response_protocol d = htpy_connp_get_response_protocol e ∧
    htpy_connp_get_response_protocol_number d = htpy_connp_get_response_protocol_number e ∧
    htpy_connp_get_request_message_length d = htpy_connp_get_request_message_length e ∧
    htpy_connp_get_request_entity_length d = htpy_connp_get_request_entity_length e ∧
    htpy_connp_get_response_message_length d = htpy_connp_get_response_message_length e ∧
    htpy_connp_get_response_entity_length d = htpy_connp_get_response_entity_length e ∧
    htpy_connp_get_uri d = htpy_connp_get_uri e := by
  have hlast : lastStoredTx a = lastStoredTx b := by
    rw [lastStoredTx, lastStoredTx, hstore]
  refine ⟨lastStoredTx_eq_getLast a, ?_, ?_, ?_, ?_, ?_, ?_, ?_, ?_, ?_, ?_, ?_, ?_,
    ?_, ?_, ?_, ?_, ?_, ?_⟩
  · rw [htpy_connp_get_request_header, htpy_connp_get_request_header, hlast]
  · rw [htpy_connp_get_response_header, htpy_connp_get_response_header, hlast]
  · rw [htpy_connp_get_all_request_headers, htpy_connp_get_all_request_headers, hlast]
  · rw [htpy_connp_get_all_response_headers, htpy_connp_get_all_response_headers, hlast]
  · rw [htpy_connp_get_method, htpy_connp_get_method, hlast]
  · rw [htpy_connp_get_response_status, htpy_connp_get_response_status, hlast]
  · rw [htpy_connp_get_response_status_string, htpy_connp_get_response_status_string, hlast]
  · rw [htpy_connp_get_request_line, htpy_connp_get_request_line, hin]
  · rw [htpy_connp_get_response_line, htpy_connp_get_response_line, hout]
  · rw [htpy_connp_get_request_protocol, htpy_connp_get_request_protocol, hin]
  · rw [htpy_connp_get_request_protocol_number, htpy_connp_get_request_protocol_number, hin]
  · rw [htpy_connp_get_response_protocol, htpy_connp_get_response_protocol, hout]
  · rw [htpy_connp_get_response_protocol_number, htpy_connp_get_response_protocol_number, hout]
  · rw [htpy_connp_get_request_message_length, htpy_connp_get_request_message_length, hin]
  · rw [htpy_connp_get_request_entity_length, htpy_connp_get_request_entity_length, hin]
  · rw [htpy_connp_get_response_message_length, htpy_connp_get_response_message_length, hout]
  · rw [htpy_connp_get_response_entity_length, htpy_connp_get_response_entity_length, hout]
  · rw [htpy_connp_get_uri, htpy_connp_get_uri, hin]

/-- C5 witness: a store-preserving cursor change leaves get_method
unchanged, and a cursor-preserving store change leaves get_request_line
unchanged, on concrete states. -/
theorem c5_accessor_resolution_amended_witness :
    htpy_connp_get_method
        { transactions := [{ request_method := some "GET" }],
          in_tx := some { request_method := some "GET" }, out_tx := none } =
      htpy_connp_get_method
        { transactions := [{ request_method := some "GET" }],
          in_tx := none, out_tx := none } ∧
    htpy_connp_get_request_line c5ConnpCx =
      htpy_connp_get_request_line
        { transactions := [], in_tx := c5ConnpCx.in_tx, out_tx := none } := by
  have h1 := c5_accessor_resolution_amended
    { transactions := [{ request_method := some "GET" }],
      in_tx := some { request_method := some "GET" }, out_tx := none }
    { transactions := [{ request_method := some "GET" }],
      in_tx := none, out_tx := none }
    c5ConnpCx
    { transactions := [], in_tx := c5ConnpCx.in_tx, out_tx := none }
    "Host" rfl rfl rfl
  exact ⟨h1.2.2.2.2.2.1, h1.2.2.2.2.2.2.2.2.1⟩

theorem optSetStr_none (d : List (String × PyVal)) (label : String) :
    optSetStr d label none = d := rfl

theorem optSetStr_some (d : List (String × PyVal)) (label : String) (s : Bstr) :
    optSetStr d label (some s) = PyDict_SetItem d label (.str s) := rfl

theorem mem_SetItem_self {α : Type} (d : List (String × α)) (k : String) (v : α) :
    (k, v) ∈ PyDict_SetItem d k v := by
  induction d with
  | nil => simp [PyDict_SetItem]
  | cons p rest ih =>
    by_cases hp : (p.1 == k) = true
    · simp [PyDict_SetItem, hp]
    · simp only [PyDict_SetItem, hp, Bool.false_eq_true, if_false]
      exact List.mem_cons_of_mem _ ih

theorem mem_SetItem_pair_other {α : Type} (kq k : String) {d : List (String × α)}
    {v w : α} (h : kq ≠ k) :
    ((kq, w) ∈ PyDict_SetItem d k v) ↔ (kq, w) ∈ d := by
  induction d with
  | nil => simp [PyDict_SetItem, h]
  | cons p rest ih =>
    by_cases hp : (p.1 == k) = true
    · have hpk : p.1 = k := by simpa using hp
      simp only [PyDict_SetItem, hp, if_true, List.mem_cons]
      constructor
      · rintro (he | hm)
        · injection he with he1 he2
          exact absurd he1 h
        · exact Or.inr hm
      · rintro (he | hm)
        · have : kq = p.1 := congrArg Prod.fst he
          exact absurd (this.trans hpk) h
        · exact Or.inr hm
    · simp only [PyDict_SetItem, hp, Bool.false_eq_true, if_false, List.mem_cons]
      rw [ih]

theorem key_SetItem_other {α : Type} (kq k : String) {d : List (String × α)} {v : α}
    (h : kq ≠ k) :
    (kq ∈ (PyDict_SetItem d k v).map Prod.fst) ↔ kq ∈ d.map Prod.fst := by
  induction d with
  | nil => simp [PyDict_SetItem, h]
  | cons p rest ih =>
    by_cases hp : (p.1 == k) = true
    · have hpk : p.1 = k := by simpa using hp
      simp [PyDict_SetItem, hp, hpk, h]
    · simp only [PyDict_SetItem, hp, Bool.false_eq_true, if_false, List.map_cons,
        List.mem_cons]
      rw [ih]

theorem mem_pair_optSetStr (kq label : String) {d : List (String × PyVal)} {w : PyVal}
    {v : Option Bstr} (h : kq ≠ label) :
    ((kq, w) ∈ optSetStr d label v) ↔ (kq, w) ∈ d := by
  cases v with
  | none => exact Iff.rfl
  | some s => exact mem_SetItem_pair_other kq label h

theorem key_optSetStr (kq label : String) {d : List (String × PyVal)}
    {v : Option Bstr} (h : kq ≠ label) :
    (kq ∈ (optSetStr d label v).map Prod.fst) ↔ kq ∈ d.map Prod.fst := by
  cases v with
  | none => exact Iff.rfl
  | some s => exact key_SetItem_other kq label h

theorem mem_pair_iteSet (kq k : String) {d : List (String × PyVal)} {w x : PyVal}
    {c : Prop} [Decidable c] (h : kq ≠ k) :
    ((kq, w) ∈ if c then PyDict_SetItem d k x else d) ↔ (kq, w) ∈ d := by
  by_cases hc : c
  · simp only [hc, if_true]
    exact mem_SetItem_pair_other kq k h
  · simp [hc]

theorem key_iteSet (kq k : String) {d : List (String × PyVal)} {x : PyVal}
    {c : Prop} [Decidable c] (h : kq ≠ k) :
    (kq ∈ (if c then PyDict_SetItem d k x else d).map Prod.fst) ↔
      kq ∈ d.map Prod.fst := by
  by_cases hc : c
  · simp only [hc, if_true]
    exact key_SetItem_other kq k h
  · simp [hc]

/-- C6: get_uri returns a mapping in which each of scheme, username,
password, hostname, port, path, query and fragment is independently
optional: a component absent from the parsed URI contributes no key to the
mapping at all, while every present component appears under its key with
its value. -/
theorem c6_uri_components (c : HtpConnp) (tx : HtpTx) (uri : HtpUri)
    (hin : c.in_tx = some tx) (hu : tx.parsed_uri = some uri) :
    htpy_connp_get_uri c = .value (uriDictOf uri) ∧
    (uri.scheme = none → "scheme" ∉ (uriDictOf uri).map Prod.fst) ∧
    (∀ s, uri.scheme = some s → ("scheme", PyVal.str s) ∈ uriDictOf uri) ∧
    (uri.username = none → "username" ∉ (uriDictOf uri).map Prod.fst) ∧
    (∀ s, uri.username = some s → ("username", PyVal.str s) ∈ uriDictOf uri) ∧
    (uri.password = none → "password" ∉ (uriDictOf uri).map Prod.fst) ∧
    (∀ s, uri.password = some s → ("password", PyVal.str s) ∈ uriDictOf uri) ∧
    (uri.hostname = none → "hostname" ∉ (uriDictOf uri).map Prod.fst) ∧
    (∀ s, uri.hostname = some s → ("hostname", PyVal.str s) ∈ uriDictOf uri) ∧
    (uri.port = none → "port" ∉ (uriDictOf uri).map Prod.fst) ∧
    (∀ s, uri.port = some s → ("port", PyVal.str s) ∈ uriDictOf uri) ∧
    (uri.path = none → "path" ∉ (uriDictOf uri).map Prod.fst) ∧
    (∀ s, uri.path = some s → ("path", PyVal.str s) ∈ uriDictOf uri) ∧
    (uri.query = none → "query" ∉ (uriDictOf uri).map Prod.fst) ∧
    (∀ s, uri.query = some s → ("query", PyVal.str s) ∈ uriDictOf uri) ∧
    (uri.fragment = none → "fragment" ∉ (uriDictOf uri).map Prod.fst) ∧
    (∀ s, uri.fragment = some s → ("fragment", PyVal.str s) ∈ uriDictOf uri) := by
  refine ⟨by simp [htpy_connp_get_uri, hin, hu], ?_, ?_, ?_, ?_, ?_, ?_, ?_, ?_, ?_,
    ?_, ?_, ?_, ?_, ?_, ?_, ?_⟩
  · intro hx
    simp only [uriDictOf]
    rw [key_optSetStr "scheme" "fragment" (by decide),
      key_optSetStr "scheme" "query" (by decide),
      key_optSetStr "scheme" "path" (by decide),
      key_iteSet "scheme" "port_number" (by decide),
      key_optSetStr "scheme" "port" (by decide),
      key_optSetStr "scheme" "hostname" (by decide),
      key_optSetStr "scheme" "password" (by decide),
      key_optSetStr "scheme" "username" (by decide),
      hx, optSetStr_none]
    simp
  · intro s hx
    simp only [uriDictOf]
    rw [mem_pair_optSetStr "scheme" "fragment" (by decide),
      mem_pair_optSetStr "scheme" "query" (by decide),
      mem_pair_optSetStr "scheme" "path" (by decide),
      mem_pair_iteSet "scheme" "port_number" (by decide),
      mem_pair_optSetStr "scheme" "port" (by decide),
      mem_pair_optSetStr "scheme" "hostname" (by decide),
      mem_pair_optSetStr "scheme" "password" (by decide),
      mem_pair_optSetStr "scheme" "username" (by decide),
      hx, optSetStr_some]
    exact mem_SetItem_self _ _ _
  · intro hx
    simp only [uriDictOf]
    rw [key_optSetStr "username" "fragment" (by decide),
      key_optSetStr "username" "query" (by decide),
      key_optSetStr "username" "path" (by decide),
      key_iteSet "username" "port_number" (by decide),
      key_optSetStr "username" "port" (by decide),
      key_optSetStr "username" "hostname" (by decide),
      key_optSetStr "username" "password" (by decide),
      hx, optSetStr_none,
      key_optSetStr "username" "scheme" (by decide)]
    simp
  · intro s hx
    simp only [uriDictOf]
    rw [mem_pair_optSetStr "username" "fragment" (by decide),
      mem_pair_optSetStr "username" "query" (by decide),
      mem_pair_optSetStr "username" "path" (by decide),
      mem_pair_iteSet "username" "port_number" (by decide),
      mem_pair_optSetStr "username" "port" (by decide),
      mem_pair_optSetStr "username" "hostname" (by decide),
      mem_pair_optSetStr "username" "password" (by decide),
      hx, optSetStr_some]
    exact mem_SetItem_self _ _ _
  · intro hx
    simp only [uriDictOf]
    rw [key_optSetStr "password" "fragment" (by decide),
      key_optSetStr "password" "query" (by decide),
      key_optSetStr "password" "path" (by decide),
      key_iteSet "password" "port_number" (by decide),
      key_optSetStr "password" "port" (by decide),
      key_optSetStr "password" "hostname" (by decide),
      hx, optSetStr_none,
      key_optSetStr "password" "username" (by decide),
      key_optSetStr "password" "scheme" (by decide)]
    simp
  · intro s hx
    simp only [uriDictOf]
    rw [mem_pair_optSetStr "password" "fragment" (by decide),
      mem_pair_optSetStr "password" "query" (by decide),
      mem_pair_optSetStr "password" "path" (by decide),
      mem_pair_iteSet "password" "port_number" (by decide),
      mem_pair_optSetStr "password" "port" (by decide),
      mem_pair_optSetStr "password" "hostname" (by decide),
      hx, optSetStr_some]
    exact mem_SetItem_self _ _ _
  · intro hx
    simp only [uriDictOf]
    rw [key_optSetStr "hostname" "fragment" (by decide),
      key_optSetStr "hostname" "query" (by decide),
      key_optSetStr "hostname" "path" (by decide),
      key_iteSet "hostname" "port_number" (by decide),
      key_optSetStr "hostname" "port" (by decide),
      hx, optSetStr_none,
      key_optSetStr "hostname" "password" (by decide),
      key_optSetStr "hostname" "username" (by decide),
      key_optSetStr "hostname" "scheme" (by decide)]
    simp
  · intro s hx
    simp only [uriDictOf]
    rw [mem_pair_optSetStr "hostname" "fragment" (by decide),
      mem_pair_optSetStr "hostname" "query" (by decide),
      mem_pair_optSetStr "hostname" "path" (by decide),
      mem_pair_iteSet "hostname" "port_number" (by decide),
      mem_pair_optSetStr "hostname" "port" (by decide),
      hx, optSetStr_some]
    exact mem_SetItem_self _ _ _
  · intro hx
    simp only [uriDictOf]
    rw [key_optSetStr "port" "fragment" (by decide),
      key_optSetStr "port" "query" (by decide),
      key_optSetStr "port" "path" (by decide),
      key_iteSet "port" "port_number" (by decide),
      hx, optSetStr_none,
      key_optSetStr "port" "hostname" (by decide),
      key_optSetStr "port" "password" (by decide),
      key_optSetStr "port" "username" (by decide),
      key_optSetStr "port" "scheme" (by decide)]
    simp
  · intro s hx
    simp only [uriDictOf]
    rw [mem_pair_optSetStr "port" "fragment" (by decide),
      mem_pair_optSetStr "port" "query" (by decide),
      mem_pair_optSetStr "port" "path" (by decide),
      mem_pair_iteSet "port" "port_number" (by decide),
      hx, optSetStr_some]
    exact mem_SetItem_self _ _ _
  · intro hx
    simp only [uriDictOf]
    rw [key_optSetStr "path" "fragment" (by decide),
      key_optSetStr "path" "query" (by decide),
      hx, optSetStr_none,
      key_iteSet "path" "port_number" (by decide),
      key_optSetStr "path" "port" (by decide),
      key_optSetStr "path" "hostname" (by decide),
      key_optSetStr "path" "password" (by decide),
      key_optSetStr "path" "username" (by decide),
      key_optSetStr "path" "scheme" (by decide)]
    simp
  · intro s hx
    simp only [uriDictOf]
    rw [mem_pair_optSetStr "path" "fragment" (by decide),
      mem_pair_optSetStr "path" "query" (by decide),
      hx, optSetStr_some]
    exact mem_SetItem_self _ _ _
  · intro hx
    simp only [uriDictOf]
    rw [key_optSetStr "query" "fragment" (by decide),
      hx, optSetStr_none,
      key_optSetStr "query" "path" (by decide),
      key_iteSet "query" "port_number" (by decide),
      key_optSetStr "query" "port" (by decide),
      key_optSetStr "query" "hostname" (by decide),
      key_optSetStr "query" "password" (by decide),
      key_optSetStr "query" "username" (by decide),
      key_optSetStr "query" "scheme" (by decide)]
    simp
  · intro s hx
    simp only [uriDictOf]
    rw [mem_pair_optSetStr "query" "fragment" (by decide),
      hx, optSetStr_some]
    exact mem_SetItem_self _ _ _
  · intro hx
    simp only [uriDictOf]
    rw [hx, optSetStr_none,
      key_optSetStr "fragment" "query" (by decide),
      key_optSetStr "fragment" "path" (by decide),
      key_iteSet "fragment" "port_number" (by decide),
      key_optSetStr "fragment" "port" (by decide),
      key_optSetStr "fragment" "hostname" (by decide),
      key_optSetStr "fragment" "password" (by decide),
      key_optSetStr "fragment" "username" (by decide),
      key_optSetStr "fragment" "scheme" (by decide)]
    simp
  · intro s hx
    simp only [uriDictOf]
    rw [hx, optSetStr_some]
    exact mem_SetItem_self _ _ _

/-- Concrete parsed URI with only path and query present. -/
def c6Uri : HtpUri := { path := some "/a", query := some "x=1" }

/-- Concrete parser state carrying c6Uri on the request cursor. -/
def c6ConnpCx : HtpConnp :=
  { transactions := [], in_tx := some { parsed_uri := some c6Uri }, out_tx := none }

/-- C6 witness: on the concrete URI, the absent scheme contributes no key
and the present path appears under its key. -/
theorem c6_uri_components_witness :
    "scheme" ∉ (uriDictOf c6Uri).map Prod.fst ∧
    ("path", PyVal.str "/a") ∈ uriDictOf c6Uri := by
  obtain ⟨_, hs, _, _, _, _, _, _, _, _, _, _, hp, _⟩ :=
    c6_uri_components c6ConnpCx { parsed_uri := some c6Uri } c6Uri rfl rfl
  exact ⟨hs rfl, hp "/a" rfl⟩

/-- C9: when the relevant cursor transaction exists but a message-length or
entity-length counter is zero, the corresponding accessor returns None
rather than zero — and a missing cursor transaction also yields None, so a
zero-length body is indistinguishable from an absent one at the public
interface. -/
theorem c9_zero_length_is_none (c : HtpConnp) (tx : HtpTx) :
    (c.in_tx = some tx → tx.request_message_len = 0 →
      htpy_connp_get_request_message_length c = .pyNone) ∧
    (c.in_tx = some tx → tx.request_entity_len = 0 →
      htpy_connp_get_request_entity_length c = .pyNone) ∧
    (c.out_tx = some tx → tx.response_message_len = 0 →
      htpy_connp_get_response_message_length c = .pyNone) ∧
    (c.out_tx = some tx → tx.response_entity_len = 0 →
      htpy_connp_get_response_entity_length c = .pyNone) ∧
    (c.in_tx = none → htpy_connp_get_request_message_length c = .pyNone ∧
      htpy_connp_get_request_entity_length c = .pyNone) ∧
    (c.out_tx = none → htpy_connp_get_response_message_length c = .pyNone ∧
      htpy_connp_get_response_entity_length c = .pyNone) := by
  refine ⟨?_, ?_, ?_, ?_, ?_, ?_⟩ <;> intro h
  · intro h0
    simp [htpy_connp_get_request_message_length, h, h0]
  · intro h0
    simp [htpy_connp_get_request_entity_length, h, h0]
  · intro h0
    simp [htpy_connp_get_response_message_length, h, h0]
  · intro h0
    simp [htpy_connp_get_response_entity_length, h, h0]
  · exact ⟨by simp [htpy_connp_get_request_message_length, h],
      by simp [htpy_connp_get_request_entity_length, h]⟩
  · exact ⟨by simp [htpy_connp_get_response_message_length, h],
      by simp [htpy_connp_get_response_entity_length, h]⟩

/-- C9 witness: a concrete cursor transaction with all four counters at
zero yields None from every length accessor. -/
theorem c9_zero_length_is_none_witness :
    htpy_connp_get_request_message_length
      { transactions := [], in_tx := some ({} : HtpTx), out_tx := some ({} : HtpTx) } =
      .pyNone ∧
    htpy_connp_get_response_entity_length
      { transactions := [], in_tx := some ({} : HtpTx), out_tx := some ({} : HtpTx) } =
      .pyNone := by
  have h := c9_zero_length_is_none
    { transactions := [], in_tx := some ({} : HtpTx), out_tx := some ({} : HtpTx) }
    ({} : HtpTx)
  exact ⟨h.1 rfl rfl, h.2.2.2.1 rfl rfl⟩

/-- Concrete parser state whose last stored transaction has no response
status line yet; the response cursor points at the same transaction. -/
def c10ConnpCx : HtpConnp :=
  { transactions := [({} : HtpTx)],
    in_tx := none,
    out_tx := some ({} : HtpTx) }

/-- C10: with a stored transaction whose response status is not yet
populated, get_response_status_string dereferences the NULL status without
the absence guard, while the sibling accessor get_response_line maps the
analogous absence to None. -/
theorem c10_status_string_missing_guard :
    lastStoredTx c10ConnpCx = some ({} : HtpTx) ∧
    ({} : HtpTx).response_status = none ∧
    htpy_connp_get_response_status_string c10ConnpCx = .nullDeref ∧
    ({} : HtpTx).response_line = none ∧
    htpy_connp_get_response_line c10ConnpCx = .pyNone :=
  ⟨rfl, rfl, rfl, rfl, rfl⟩
